import Mathlib

/-!
Shallow embedding of the go-chip8 CPU core (package `chip8`).

Machine words are modelled as `Nat` with explicit reductions `% 256`
(Go `byte`) and `% 65536` (Go `uint16`) wherever the Go code performs
arithmetic on those types.  Fixed-size Go arrays (`Memory [4096]byte`,
`V [16]byte`, `Stack [16]uint16`, `Pixels [2048]byte`) are modelled as
total functions `Nat → Nat`; an access whose index the Go runtime would
reject (index out of range, a panic) is modelled by returning `none`
from the operation, so `dispatch` yields `Option (CPU × Option Err)`:
`none` is a runtime panic, `some (c, none)` is a normal return,
`some (c, some e)` is `return err`.

External effects are passed in as oracles: `randVal` is the value the
Go code obtains from `rand.Intn(255)`, and `key` is the result of the
configured keypad source `GetKey()` (a byte, the distinguished
`ErrQuit`, or some other error identified by a numeric code).
-/

namespace Chip8

/-- Result of the external keypad source `GetKey()`: either a byte, the
distinguished `ErrQuit` sentinel, or any other error (identified here by
a numeric code standing for the opaque Go error value). -/
inductive KeyErr where
  | quit
  | other (code : Nat)
deriving DecidableEq, Repr

/-- Errors surfaced by `dispatch`: `UnknownOpcode{opcode}`, the
`ErrQuit` sentinel passed through unwrapped by `getKey`, or a keypad
error wrapped by `getKey` (`fmt.Errorf("chip8: unable to get key ...")`). -/
inductive Err where
  | unknownOpcode (opcode : Nat)
  | quit
  | keypadWrapped (code : Nat)
deriving DecidableEq, Repr

/-- Go `uint16` truncation. -/
def u16 (n : Nat) : Nat := n % 65536

/-- Go `byte` truncation. -/
def u8 (n : Nat) : Nat := n % 256

/-- Byte subtraction `a - b` on Go `byte` values (wraparound). -/
def bsub (a b : Nat) : Nat := (256 + a - b) % 256

/-- Pointwise update of a function-modelled array. -/
def upd (f : Nat → Nat) (i v : Nat) : Nat → Nat :=
  fun j => if j = i then v else f j

/-- `GraphicsWidth` from the source. -/
def GraphicsWidth : Nat := 64

/-- `GraphicsHeight` from the source. -/
def GraphicsHeight : Nat := 32

/-- `Graphics.Set`: single-pixel XOR primitive.  Computes the address
`a = x + y*GraphicsWidth`, reports a collision iff the pixel was 1
before the write, and XORs the new bit in.  The Go array access
`g.Pixels[a]` panics when `a` is outside the 2048-entry array; that is
the `none` case. -/
def Set (px : Nat → Nat) (x y : Nat) (isOn : Bool) : Option ((Nat → Nat) × Bool) :=
  let a := x + y * GraphicsWidth
  if a < GraphicsWidth * GraphicsHeight then
    let collision := px a = 1
    let v := if isOn then 1 else 0
    some (upd px a ((px a) ^^^ v), collision)
  else
    none

/-- One inner-loop iteration of `Graphics.WriteSprite`: bit `xl` of
sprite row `r` (row index `yl`), written at base coordinate `(x, y)`
with the single-subtraction wraparound from the source. -/
def spritePixel (x y r yl xl : Nat) (st : (Nat → Nat) × Bool) :
    Option ((Nat → Nat) × Bool) :=
  let mask := 0x80 >>> xl
  let isOn := r &&& mask = mask
  let xp0 := x + xl
  let xp := if GraphicsWidth ≤ xp0 then xp0 - GraphicsWidth else xp0
  let yp0 := y + yl
  let yp := if GraphicsHeight ≤ yp0 then yp0 - GraphicsHeight else yp0
  match Set st.1 xp yp isOn with
  | none => none
  | some (p, c) => some (p, st.2 || c)

/-- One outer-loop iteration of `Graphics.WriteSprite`: sprite row `r`
at row offset `yl`, looping `xl` over the 8 bits of the row. -/
def spriteRow (x y r yl : Nat) (st : (Nat → Nat) × Bool) :
    Option ((Nat → Nat) × Bool) :=
  (List.range 8).foldl
    (fun acc xl => acc.bind (spritePixel x y r yl xl)) (some st)

/-- `Graphics.WriteSprite sprite x y`: XOR-draws each row of the sprite,
accumulating the collision flag; `none` models the panic when a
computed pixel address falls outside the array. -/
def WriteSprite (sprite : List Nat) (x y : Nat) (px : Nat → Nat) :
    Option ((Nat → Nat) × Bool) :=
  (List.range sprite.length).foldl
    (fun acc yl => acc.bind (spriteRow x y (sprite.getD yl 0) yl)) (some (px, false))

/-- The list of `(x, y)` coordinates visited by `Graphics.EachPixel`,
in loop order: `y` from 0 while `y < GraphicsHeight-1`, inner `x` from 0
while `x < GraphicsWidth-1`. -/
def eachPixelCoords : List (Nat × Nat) :=
  (List.range (GraphicsHeight - 1)).flatMap
    (fun y => (List.range (GraphicsWidth - 1)).map (fun x => (x, y)))

/-- `Graphics.EachPixel`: folds the callback over the visited
coordinates, passing `x`, `y` and the address `a = y*GraphicsWidth + x`. -/
def EachPixel (fn : Nat → Nat → Nat → (Nat → Nat) → (Nat → Nat))
    (px : Nat → Nat) : Nat → Nat :=
  eachPixelCoords.foldl
    (fun p c => fn c.1 c.2 (c.2 * GraphicsWidth + c.1) p) px

/-- `Graphics.Clear`: zeroes each pixel yielded by `EachPixel`. -/
def Clear (px : Nat → Nat) : Nat → Nat :=
  EachPixel (fun _ _ addr p => upd p addr 0) px

/-- CPU state, mirroring the Go `CPU` struct fields the core mutates
(the graphics buffer is embedded, as in the source; the clock, stop
channel and keypad are externalized). -/
structure CPU where
  Memory : Nat → Nat
  V : Nat → Nat
  I : Nat
  ProgramCounter : Nat
  Stack : Nat → Nat
  StackPointer : Nat
  Pixels : Nat → Nat
  DelayTimer : Nat
  SoundTimer : Nat

/-- `bytes.Reader.Read` semantics used by `load`/`LoadBytes`: reading
from a fresh reader over `b` into a buffer of length `bufLen` returns
`(0, io.EOF)` when `b` is empty and otherwise copies
`min (length b) bufLen` bytes with a nil error. -/
def bytesReaderRead (b : List Nat) (bufLen : Nat) : Nat × Bool :=
  if b.length = 0 then (0, true) else (min b.length bufLen, false)

/-- `CPU.load offset r` with `r` a `bytes.Reader` over `b` (the
`LoadBytes` path): `r.Read(c.Memory[offset:])` copies into the 4096-byte
memory starting at `offset` and returns the byte count and whether an
error (`io.EOF`) occurred. -/
def load (offset : Nat) (b : List Nat) (mem : Nat → Nat) :
    (Nat → Nat) × Nat × Bool :=
  let r := bytesReaderRead b (4096 - offset)
  let n := r.1
  (fun a => if offset ≤ a ∧ a < offset + n then b.getD (a - offset) 0 else mem a,
   n, r.2)

/-- `CPU.decodeOp`: big-endian combination of the two bytes at the
program counter (`uint16` index arithmetic on `ProgramCounter+1`). -/
def decodeOp (c : CPU) : Nat :=
  (c.Memory c.ProgramCounter) <<< 8 ||| c.Memory (u16 (c.ProgramCounter + 1))

/-- `CPU.getKey`: passes `ErrQuit` through unwrapped and wraps every
other keypad error in a new error value. -/
def getKey (key : Except KeyErr Nat) : Except Err Nat :=
  match key with
  | .ok b => .ok b
  | .error .quit => .error .quit
  | .error (.other n) => .error (.keypadWrapped n)

/-- The `0x0000` class of `CPU.dispatch`: the inner `switch opcode`
with cases `0x00E0` (clear), `0x00EE` (return) and a default returning
`UnknownOpcode`. -/
def dispatch0 (opcode : Nat) (c : CPU) : Option (CPU × Option Err) :=
  if opcode = 0x00E0 then
    some ({ c with Pixels := Clear c.Pixels,
                   ProgramCounter := u16 (c.ProgramCounter + 2) }, none)
  else if opcode = 0x00EE then
    if c.StackPointer < 16 then
      some ({ c with ProgramCounter := u16 (c.Stack c.StackPointer + 2),
                     StackPointer := u8 (c.StackPointer + 255) }, none)
    else none
  else some (c, some (.unknownOpcode opcode))

/-- The `0x8000` class of `CPU.dispatch`: the inner switch on the bottom
nibble with cases 0–7 and E; the Go switch has no default, so any other
bottom nibble falls through and the dispatch returns nil with the state
untouched. -/
def dispatch8 (opcode : Nat) (c : CPU) : Option (CPU × Option Err) :=
  let x := (opcode &&& 0x0F00) >>> 8
  let y := (opcode &&& 0x00F0) >>> 4
  if opcode &&& 0x000F = 0x0000 then
    some ({ c with V := upd c.V x (c.V y),
                   ProgramCounter := u16 (c.ProgramCounter + 2) }, none)
  else if opcode &&& 0x000F = 0x0001 then
    some ({ c with V := upd c.V x (c.V y ||| c.V x),
                   ProgramCounter := u16 (c.ProgramCounter + 2) }, none)
  else if opcode &&& 0x000F = 0x0002 then
    some ({ c with V := upd c.V x (c.V y &&& c.V x),
                   ProgramCounter := u16 (c.ProgramCounter + 2) }, none)
  else if opcode &&& 0x000F = 0x0003 then
    some ({ c with V := upd c.V x (c.V y ^^^ c.V x),
                   ProgramCounter := u16 (c.ProgramCounter + 2) }, none)
  else if opcode &&& 0x000F = 0x0004 then
    let result := c.V x + c.V y
    let cf := if 0xFF < result then 1 else 0
    let v1 := upd c.V 0xF cf
    some ({ c with V := upd v1 x (u8 result),
                   ProgramCounter := u16 (c.ProgramCounter + 2) }, none)
  else if opcode &&& 0x000F = 0x0005 then
    let cf := if c.V y < c.V x then 1 else 0
    let v1 := upd c.V 0xF cf
    some ({ c with V := upd v1 x (bsub (v1 x) (v1 y)),
                   ProgramCounter := u16 (c.ProgramCounter + 2) }, none)
  else if opcode &&& 0x000F = 0x0006 then
    let cf := if c.V x &&& 0x01 = 0x01 then 1 else 0
    let v1 := upd c.V 0xF cf
    some ({ c with V := upd v1 x (v1 x / 2),
                   ProgramCounter := u16 (c.ProgramCounter + 2) }, none)
  else if opcode &&& 0x000F = 0x0007 then
    let cf := if c.V x < c.V y then 1 else 0
    let v1 := upd c.V 0xF cf
    some ({ c with V := upd v1 x (bsub (v1 y) (v1 x)),
                   ProgramCounter := u16 (c.ProgramCounter + 2) }, none)
  else if opcode &&& 0x000F = 0x000E then
    let cf := if c.V x &&& 0x80 = 0x80 then 1 else 0
    let v1 := upd c.V 0xF cf
    some ({ c with V := upd v1 x (u8 (v1 x * 2)),
                   ProgramCounter := u16 (c.ProgramCounter + 2) }, none)
  else
    some (c, none)

/-- The `0x9000` class of `CPU.dispatch`: bottom nibble 0 is the
skip-if-not-equal instruction, any other bottom nibble is
`UnknownOpcode`. -/
def dispatch9 (opcode : Nat) (c : CPU) : Option (CPU × Option Err) :=
  let x := (opcode &&& 0x0F00) >>> 8
  let y := (opcode &&& 0x00F0) >>> 4
  if opcode &&& 0x000F = 0x0000 then
    let pc := u16 (c.ProgramCounter + 2)
    some ({ c with ProgramCounter := if c.V x ≠ c.V y then u16 (pc + 2) else pc },
          none)
  else
    some (c, some (.unknownOpcode opcode))

/-- The `0xD000` draw instruction of `CPU.dispatch`: reads the sprite
rows from `Memory[I : I+n]`, XOR-draws them at `(V[X], V[Y])`, sets the
collision flag in `VF`; a panic inside `WriteSprite` propagates. -/
def dispatchD (opcode : Nat) (c : CPU) : Option (CPU × Option Err) :=
  let x := c.V ((opcode &&& 0x0F00) >>> 8)
  let y := c.V ((opcode &&& 0x00F0) >>> 4)
  let n := opcode &&& 0x000F
  let sprite := (List.range n).map (fun i => c.Memory (u16 (c.I + i)))
  match WriteSprite sprite x y c.Pixels with
  | none => none
  | some (px, col) =>
      some ({ c with Pixels := px,
                     V := upd c.V 0xF (if col then 1 else 0),
                     ProgramCounter := u16 (c.ProgramCounter + 2) }, none)

/-- The `0xE000` class of `CPU.dispatch`: the key-pressed skip
instructions (`EX9E`, `EXA1`) and an `UnknownOpcode` default.  The
program counter is advanced before the keypad is consulted, so a keypad
failure leaves it advanced by 2. -/
def dispatchE (opcode : Nat) (c : CPU) (key : Except KeyErr Nat) :
    Option (CPU × Option Err) :=
  let x := (opcode &&& 0x0F00) >>> 8
  if opcode &&& 0x00FF = 0x9E then
    let c1 := { c with ProgramCounter := u16 (c.ProgramCounter + 2) }
    match getKey key with
    | .error e => some (c1, some e)
    | .ok b =>
        if c1.V x = b then
          some ({ c1 with ProgramCounter := u16 (c1.ProgramCounter + 2) }, none)
        else some (c1, none)
  else if opcode &&& 0x00FF = 0xA1 then
    let c1 := { c with ProgramCounter := u16 (c.ProgramCounter + 2) }
    match getKey key with
    | .error e => some (c1, some e)
    | .ok b =>
        if c1.V x ≠ b then
          some ({ c1 with ProgramCounter := u16 (c1.ProgramCounter + 2) }, none)
        else some (c1, none)
  else some (c, some (.unknownOpcode opcode))

/-- The `0xF000` class of `CPU.dispatch`: the timer, keypad-wait, index,
font, BCD and register-file instructions, with an `UnknownOpcode`
default. -/
def dispatchF (opcode : Nat) (c : CPU) (key : Except KeyErr Nat) :
    Option (CPU × Option Err) :=
  let x := (opcode &&& 0x0F00) >>> 8
  if opcode &&& 0x00FF = 0x07 then
    some ({ c with V := upd c.V x c.DelayTimer,
                   ProgramCounter := u16 (c.ProgramCounter + 2) }, none)
  else if opcode &&& 0x00FF = 0x0A then
    match getKey key with
    | .error e => some (c, some e)
    | .ok b =>
        some ({ c with V := upd c.V x b,
                       ProgramCounter := u16 (c.ProgramCounter + 2) }, none)
  else if opcode &&& 0x00FF = 0x15 then
    some ({ c with DelayTimer := c.V x,
                   ProgramCounter := u16 (c.ProgramCounter + 2) }, none)
  else if opcode &&& 0x00FF = 0x18 then
    some ({ c with SoundTimer := c.V x,
                   ProgramCounter := u16 (c.ProgramCounter + 2) }, none)
  else if opcode &&& 0x00FF = 0x1E then
    some ({ c with I := u16 (c.I + c.V x),
                   ProgramCounter := u16 (c.ProgramCounter + 2) }, none)
  else if opcode &&& 0x00FF = 0x29 then
    some ({ c with I := u16 (c.V x * 0x05),
                   ProgramCounter := u16 (c.ProgramCounter + 2) }, none)
  else if opcode &&& 0x00FF = 0x33 then
    let m1 := upd c.Memory c.I (c.V x / 100)
    let m2 := upd m1 (u16 (c.I + 1)) ((c.V x / 10) % 10)
    let m3 := upd m2 (u16 (c.I + 2)) ((c.V x % 100) % 10)
    some ({ c with Memory := m3,
                   ProgramCounter := u16 (c.ProgramCounter + 2) }, none)
  else if opcode &&& 0x00FF = 0x55 then
    let m := (List.range (x + 1)).foldl
      (fun m i => upd m (u16 (c.I + i)) (c.V i)) c.Memory
    some ({ c with Memory := m,
                   ProgramCounter := u16 (c.ProgramCounter + 2) }, none)
  else if opcode &&& 0x00FF = 0x65 then
    let v := (List.range (x + 1)).foldl
      (fun v i => upd v i (c.Memory (u16 (c.I + i)))) c.V
    some ({ c with V := v,
                   ProgramCounter := u16 (c.ProgramCounter + 2) }, none)
  else some (c, some (.unknownOpcode opcode))

/-- `CPU.dispatch opcode`: the decode/dispatch engine, one branch per Go
`case` of the top-nibble switch; the nested switches of classes 0x0,
0x8, 0x9, 0xD, 0xE and 0xF are the functions above.  `randVal` is the
`rand.Intn(255)` result consumed by opcode `0xCXNN`; `key` is the keypad
result consumed by `0xEX9E`, `0xEXA1` and `0xFX0A`.  `none` models a Go
runtime panic (array index out of range on the stack or the pixel
array). -/
def dispatch (opcode : Nat) (c : CPU) (randVal : Nat)
    (key : Except KeyErr Nat) : Option (CPU × Option Err) :=
  if opcode &&& 0xF000 = 0x0000 then
    dispatch0 opcode c
  else if opcode &&& 0xF000 = 0x1000 then
    some ({ c with ProgramCounter := opcode &&& 0x0FFF }, none)
  else if opcode &&& 0xF000 = 0x2000 then
    let sp := u8 (c.StackPointer + 1)
    if sp < 16 then
      some ({ c with StackPointer := sp,
                     Stack := upd c.Stack sp c.ProgramCounter,
                     ProgramCounter := opcode &&& 0x0FFF }, none)
    else none
  else if opcode &&& 0xF000 = 0x3000 then
    let reg := (opcode &&& 0x0F00) >>> 8
    let nn := u8 opcode
    let pc := u16 (c.ProgramCounter + 2)
    some ({ c with ProgramCounter := if c.V reg = nn then u16 (pc + 2) else pc },
          none)
  else if opcode &&& 0xF000 = 0x4000 then
    let reg := (opcode &&& 0x0F00) >>> 8
    let nn := u8 opcode
    let pc := u16 (c.ProgramCounter + 2)
    some ({ c with ProgramCounter := if c.V reg ≠ nn then u16 (pc + 2) else pc },
          none)
  else if opcode &&& 0xF000 = 0x5000 then
    let x := (opcode &&& 0x0F00) >>> 8
    let y := (opcode &&& 0x00F0) >>> 8
    let pc := u16 (c.ProgramCounter + 2)
    some ({ c with ProgramCounter := if c.V x = c.V y then u16 (pc + 2) else pc },
          none)
  else if opcode &&& 0xF000 = 0x6000 then
    let x := (opcode &&& 0x0F00) >>> 8
    let nn := u8 opcode
    some ({ c with V := upd c.V x nn,
                   ProgramCounter := u16 (c.ProgramCounter + 2) }, none)
  else if opcode &&& 0xF000 = 0x7000 then
    let x := (opcode &&& 0x0F00) >>> 8
    let kk := u8 opcode
    some ({ c with V := upd c.V x (u8 (c.V x + kk)),
                   ProgramCounter := u16 (c.ProgramCounter + 2) }, none)
  else if opcode &&& 0xF000 = 0x8000 then
    dispatch8 opcode c
  else if opcode &&& 0xF000 = 0x9000 then
    dispatch9 opcode c
  else if opcode &&& 0xF000 = 0xA000 then
    some ({ c with I := opcode &&& 0x0FFF,
                   ProgramCounter := u16 (c.ProgramCounter + 2) }, none)
  else if opcode &&& 0xF000 = 0xB000 then
    some ({ c with ProgramCounter := u16 ((opcode &&& 0x0FFF) + c.V 0) }, none)
  else if opcode &&& 0xF000 = 0xC000 then
    let x := (opcode &&& 0x0F00) >>> 8
    let kk := u8 opcode
    some ({ c with V := upd c.V x (u8 (kk + u8 randVal)),
                   ProgramCounter := u16 (c.ProgramCounter + 2) }, none)
  else if opcode &&& 0xF000 = 0xD000 then
    dispatchD opcode c
  else if opcode &&& 0xF000 = 0xE000 then
    dispatchE opcode c key
  else if opcode &&& 0xF000 = 0xF000 then
    dispatchF opcode c key
  else some (c, some (.unknownOpcode opcode))

/-- Timer decrement performed at the end of a successful cycle. -/
def tickTimers (c : CPU) : CPU :=
  let c1 := if 0 < c.DelayTimer then { c with DelayTimer := c.DelayTimer - 1 } else c
  if 0 < c1.SoundTimer then { c1 with SoundTimer := c1.SoundTimer - 1 } else c1

/-- `CPU.emulateCycle`: fetch, dispatch, and — only when dispatch
returned no error — decrement the timers.  Returns the fetched opcode
alongside the state and the error, as the Go method does. -/
def emulateCycle (c : CPU) (randVal : Nat) (key : Except KeyErr Nat) :
    Option (CPU × Nat × Option Err) :=
  let opcode := decodeOp c
  match dispatch opcode c randVal key with
  | none => none
  | some (c1, some e) => some (c1, opcode, some e)
  | some (c1, none) => some (tickTimers c1, opcode, none)

/-- Outcome of one clock-tick iteration of `CPU.Run`. -/
inductive LoopOutcome where
  | continue (c : CPU)
  | stopOk
  | stopErr (e : Err)
  | crash

/-- One clock-tick iteration of `CPU.Run`: runs `emulateCycle`; on
`ErrQuit` the loop returns nil, on any other error it returns the
error, otherwise it continues. -/
def runStep (c : CPU) (randVal : Nat) (key : Except KeyErr Nat) : LoopOutcome :=
  match emulateCycle c randVal key with
  | none => .crash
  | some (c1, _, none) => .continue c1
  | some (_, _, some e) => if e = .quit then .stopOk else .stopErr e

/-- A concrete machine state: zeroed memory, registers, stack and pixel
buffer, program counter at the conventional load offset. -/
def cpu0 : CPU :=
  { Memory := fun _ => 0, V := fun _ => 0, I := 0, ProgramCounter := 0x200,
    Stack := fun _ => 0, StackPointer := 0, Pixels := fun _ => 0,
    DelayTimer := 0, SoundTimer := 0 }

/-- A concrete state with `V1 = V2 = 5` (and `V0 = 0`). -/
def cpu3 : CPU :=
  { cpu0 with V := fun i => if i = 1 then 5 else if i = 2 then 5 else 0 }

/-- A concrete state whose next fetched opcode is `0xE09E`. -/
def cpu9E : CPU :=
  { cpu0 with Memory := fun a => if a = 0x200 then 0xE0 else if a = 0x201 then 0x9E else 0 }

/-- A concrete state with a full stack (stack pointer 15). -/
def cpu15 : CPU := { cpu0 with StackPointer := 15 }

/- ### Helper lemmas -/

lemma mem_eachPixelCoords {p : Nat × Nat} (hp : p ∈ eachPixelCoords) :
    p.1 < 63 ∧ p.2 < 31 := by
  simp only [eachPixelCoords, GraphicsWidth, GraphicsHeight, List.mem_flatMap,
    List.mem_map, List.mem_range] at hp
  obtain ⟨y, hy, x, hx, rfl⟩ := hp
  exact ⟨by omega, by omega⟩

lemma foldl_upd0_ne (l : List (Nat × Nat)) (px : Nat → Nat) (a : Nat)
    (h : ∀ p ∈ l, p.2 * GraphicsWidth + p.1 ≠ a) :
    l.foldl (fun p c => upd p (c.2 * GraphicsWidth + c.1) 0) px a = px a := by
  induction l generalizing px with
  | nil => rfl
  | cons hd tl ih =>
      rw [List.foldl_cons, ih _ (fun p hp => h p (List.mem_cons_of_mem _ hp))]
      have hne := h hd (List.mem_cons_self _ _)
      simp only [upd]
      rw [if_neg (fun he => hne he.symm)]

lemma land_00EE : (0x00EE : Nat) &&& 0xF000 = 0x0000 := by decide

lemma clear_apply_ne (px : Nat → Nat) (a : Nat)
    (h : ∀ p ∈ eachPixelCoords, p.2 * GraphicsWidth + p.1 ≠ a) :
    Clear px a = px a := by
  unfold Clear EachPixel
  exact foldl_upd0_ne eachPixelCoords px a h

/- ### Claim theorems -/

/-- C1 counterexample: opcode `0x8008` (class `0x8`, bottom nibble `8`,
which matches no documented pattern) is dispatched successfully with no
state change and no `UnknownOpcode` error, refuting the claim that every
unmatched pattern fails. -/
theorem dispatch_op8008_succeeds :
    dispatch 0x8008 cpu0 0 (.ok 1) = some (cpu0, none) := rfl

/-- C1 (amended): every branch not matching a documented pattern at its
nesting level yields `UnknownOpcode` with the original opcode — except
in the `0x8` class, where a bottom nibble other than 0–7 or E returns
success with the state unchanged. -/
theorem unknownOpcode_all_levels_except_8class (op : Nat) (c : CPU) (r : Nat)
    (k : Except KeyErr Nat) :
    (op &&& 0xF000 = 0x0000 → op ≠ 0x00E0 → op ≠ 0x00EE →
      dispatch op c r k = some (c, some (.unknownOpcode op))) ∧
    (op &&& 0xF000 = 0x9000 → op &&& 0x000F ≠ 0x0000 →
      dispatch op c r k = some (c, some (.unknownOpcode op))) ∧
    (op &&& 0xF000 = 0xE000 → op &&& 0x00FF ≠ 0x9E → op &&& 0x00FF ≠ 0xA1 →
      dispatch op c r k = some (c, some (.unknownOpcode op))) ∧
    (op &&& 0xF000 = 0xF000 →
      op &&& 0x00FF ≠ 0x07 → op &&& 0x00FF ≠ 0x0A → op &&& 0x00FF ≠ 0x15 →
      op &&& 0x00FF ≠ 0x18 → op &&& 0x00FF ≠ 0x1E → op &&& 0x00FF ≠ 0x29 →
      op &&& 0x00FF ≠ 0x33 → op &&& 0x00FF ≠ 0x55 → op &&& 0x00FF ≠ 0x65 →
      dispatch op c r k = some (c, some (.unknownOpcode op))) ∧
    (op &&& 0xF000 = 0x8000 →
      op &&& 0x000F ≠ 0x0000 → op &&& 0x000F ≠ 0x0001 → op &&& 0x000F ≠ 0x0002 →
      op &&& 0x000F ≠ 0x0003 → op &&& 0x000F ≠ 0x0004 → op &&& 0x000F ≠ 0x0005 →
      op &&& 0x000F ≠ 0x0006 → op &&& 0x000F ≠ 0x0007 → op &&& 0x000F ≠ 0x000E →
      dispatch op c r k = some (c, none)) := by
  refine ⟨?_, ?_, ?_, ?_, ?_⟩
  · intro h1 h2 h3
    simp [dispatch, dispatch0, h1, h2, h3]
  · intro h1 h2
    simp [dispatch, dispatch9, h1, h2]
  · intro h1 h2 h3
    simp [dispatch, dispatchE, h1, h2, h3]
  · intro h1 h2 h3 h4 h5 h6 h7 h8 h9 h10
    simp [dispatch, dispatchF, h1, h2, h3, h4, h5, h6, h7, h8, h9, h10]
  · intro h1 h2 h3 h4 h5 h6 h7 h8 h9 h10
    simp [dispatch, dispatch8, h1, h2, h3, h4, h5, h6, h7, h8, h9, h10]

/-- C1 witness: concrete unmatched opcodes in the `0x0` and `0xF`
classes fail with `UnknownOpcode` carrying the opcode. -/
theorem unknownOpcode_all_levels_except_8class_witness :
    dispatch 0x0123 cpu0 0 (.ok 1) = some (cpu0, some (.unknownOpcode 0x0123)) ∧
    dispatch 0xF00B cpu0 0 (.ok 1) = some (cpu0, some (.unknownOpcode 0xF00B)) :=
  ⟨(unknownOpcode_all_levels_except_8class 0x0123 cpu0 0 (.ok 1)).1
      (by decide) (by decide) (by decide),
   (unknownOpcode_all_levels_except_8class 0xF00B cpu0 0 (.ok 1)).2.2.2.1
      (by decide) (by decide) (by decide) (by decide) (by decide) (by decide)
      (by decide) (by decide) (by decide) (by decide)⟩

/-- C2: on a buffer with every pixel set, `Clear` leaves the pixel at
address 2047 (column 63, row 31 — the last row and column) equal to 1,
because `EachPixel` iterates `y < GraphicsHeight-1` and
`x < GraphicsWidth-1`, never visiting the last row or column. -/
theorem clear_misses_last_pixel :
    Clear (fun _ => 1) 2047 = 1 := by
  rw [clear_apply_ne]
  intro p hp
  have h := mem_eachPixelCoords hp
  simp only [GraphicsWidth]
  omega

/-- C3: opcode `0x5120` with `V1 = V2 = 5` advances the program counter
by 2 only (to 0x202), not by 4: the code extracts the Y operand with
`>> 8` instead of `>> 4`, so it compares `V[X]` against `V[0]` (here 0),
contradicting the skip-if-equal semantics documented for `5XY0`. -/
theorem opcode5XY0_compares_V0 :
    cpu3.V 1 = cpu3.V 2 ∧
    (dispatch 0x5120 cpu3 0 (.ok 1)).map (fun p => p.1.ProgramCounter) =
      some 0x202 :=
  ⟨rfl, rfl⟩

/-- C4: opcode `0xC001` with random draw 1 sets `V0` to `1 + 1 = 2`
(byte addition of NN and the random byte), not to a value whose bits lie
inside NN = 0x01: the code adds instead of AND-combining, so bit 1 —
outside the immediate — ends up set. -/
theorem opcodeCXNN_adds_instead_of_and :
    (dispatch 0xC001 cpu0 1 (.ok 1)).map (fun p => p.1.V 0) = some 2 ∧
    ¬(2 &&& 0x01 = 2) :=
  ⟨rfl, by decide⟩

/-- C5 counterexample: loading the 3-byte sequence `[1, 2, 3]` at
offset 4094 — one byte more than the 2 bytes available up to the end of
the 4096-byte memory — returns count 2 with no error (the third byte is
simply dropped): the read silently truncates instead of failing. -/
theorem load_truncates_silently :
    (load 4094 [1, 2, 3] (fun _ => 0)).2 = (2, false) ∧
    (load 4094 [1, 2, 3] (fun _ => 0)).1 4096 = 0 :=
  ⟨rfl, rfl⟩

/-- C5 (amended): loading a nonempty byte sequence of length L at
offset O writes exactly `min L (4096-O)` bytes to `[O, O + min L (4096-O))`
and returns that count with no error; when the sequence fits this count
is L, and when it exceeds the available space the write is silently
truncated rather than failing. -/
theorem load_amended (offset : Nat) (b : List Nat) (mem : Nat → Nat)
    (hb : b.length ≠ 0) (hoff : offset ≤ 4096) :
    (load offset b mem).2 = (min b.length (4096 - offset), false) ∧
    (∀ i, i < min b.length (4096 - offset) →
      (load offset b mem).1 (offset + i) = b.getD i 0) ∧
    (∀ a, a < offset ∨ offset + min b.length (4096 - offset) ≤ a →
      (load offset b mem).1 a = mem a) ∧
    (b.length + offset ≤ 4096 → min b.length (4096 - offset) = b.length) := by
  refine ⟨?_, ?_, ?_, ?_⟩
  · simp [load, bytesReaderRead, hb]
  · intro i hi
    simp only [load, bytesReaderRead, if_neg hb]
    rw [if_pos ⟨Nat.le_add_right _ _, by omega⟩, Nat.add_sub_cancel_left]
  · intro a ha
    simp only [load, bytesReaderRead, if_neg hb]
    rw [if_neg (by omega)]
  · intro h
    omega

/-- C5 witness: loading the two-byte program `[1, 2]` at 0x200 returns
count 2 with no error, writes byte 1 at 0x200, and leaves 0x202
untouched. -/
theorem load_amended_witness :
    (load 0x200 [1, 2] (fun _ => 0)).2 = (2, false) ∧
    (load 0x200 [1, 2] (fun _ => 0)).1 0x200 = 1 ∧
    (load 0x200 [1, 2] (fun _ => 0)).1 0x202 = 0 := by
  have h := load_amended 0x200 [1, 2] (fun _ => 0) (by decide) (by decide)
  refine ⟨by simpa using h.1, ?_, ?_⟩
  · simpa using h.2.1 0 (by decide)
  · simpa using h.2.2.1 0x202 (by decide)

lemma Set_isSome (px : Nat → Nat) (x y : Nat) (b : Bool)
    (hx : x < 64) (hy : y < 32) : (Set px x y b).isSome := by
  simp only [Set, GraphicsWidth, GraphicsHeight]
  rw [if_pos (by omega)]
  rfl

lemma spritePixel_isSome (x y r yl xl : Nat) (st : (Nat → Nat) × Bool)
    (hx : x + xl < 128) (hy : y + yl < 64) :
    (spritePixel x y r yl xl st).isSome := by
  simp only [spritePixel]
  have hxp : (if GraphicsWidth ≤ x + xl then x + xl - GraphicsWidth else x + xl) < 64 := by
    simp only [GraphicsWidth]
    split <;> omega
  have hyp : (if GraphicsHeight ≤ y + yl then y + yl - GraphicsHeight else y + yl) < 32 := by
    simp only [GraphicsHeight]
    split <;> omega
  obtain ⟨s, hs⟩ := Option.isSome_iff_exists.mp (Set_isSome st.1 _ _ _ hxp hyp)
  obtain ⟨p, cc⟩ := s
  rw [hs]
  rfl

lemma foldl_bind_isSome {β : Type} (f : Nat → β → Option β) (l : List Nat)
    (h : ∀ x ∈ l, ∀ s : β, (f x s).isSome) (init : β) :
    (l.foldl (fun acc x => acc.bind (f x)) (some init)).isSome := by
  induction l generalizing init with
  | nil => rfl
  | cons hd tl ih =>
      simp only [List.foldl_cons, Option.some_bind]
      obtain ⟨s, hs⟩ :=
        Option.isSome_iff_exists.mp (h hd (List.mem_cons_self _ _) init)
      rw [hs]
      exact ih (fun x hx s => h x (List.mem_cons_of_mem _ hx) s) s

lemma spriteRow_isSome (x y r yl : Nat) (st : (Nat → Nat) × Bool)
    (hx : x + 7 < 128) (hy : y + yl < 64) : (spriteRow x y r yl st).isSome := by
  unfold spriteRow
  exact foldl_bind_isSome _ _
    (fun xl hxl s =>
      spritePixel_isSome x y r yl xl s
        (by have := List.mem_range.mp hxl; omega) hy) st

/-- C6 counterexample: drawing the one-row sprite `[0x80]` at `(0, 64)`
— a starting coordinate at twice the grid height — panics: the single
subtraction brings the row coordinate only down to 32, so `Set` computes
pixel address `0 + 32*64 = 2048`, outside the 2048-entry array. -/
theorem writeSprite_out_of_bounds_at_y64 :
    WriteSprite [0x80] 0 64 (fun _ => 0) = none := rfl

/-- C6 (amended): `WriteSprite` and its `Set` primitive stay within the
2048-entry pixel array whenever every drawn column satisfies
`x + column < 128` and every drawn row satisfies `y + row < 64` (so the
single-subtraction wraparound lands in range); starting coordinates at
or beyond twice the grid dimension are not safe. -/
theorem writeSprite_inbounds_amended (sprite : List Nat) (x y : Nat)
    (px : Nat → Nat) (hx : x + 7 < 128) (hy : y + sprite.length ≤ 64) :
    (WriteSprite sprite x y px).isSome := by
  unfold WriteSprite
  exact foldl_bind_isSome _ _
    (fun yl hyl s =>
      spriteRow_isSome x y (sprite.getD yl 0) yl s hx
        (by have := List.mem_range.mp hyl; omega)) (px, false)

/-- C6 witness: the one-row sprite `[1]` drawn at `(0, 0)` is written
without any out-of-range access. -/
theorem writeSprite_inbounds_amended_witness :
    (0 : Nat) + 7 < 128 ∧ (WriteSprite [1] 0 0 (fun _ => 0)).isSome :=
  ⟨by decide, writeSprite_inbounds_amended [1] 0 0 (fun _ => 0) (by decide) (by decide)⟩

/-- C7: a call opcode `2NNN` followed immediately by a return opcode
`00EE` (no intervening stack activity) leaves the program counter at the
call-site program counter plus 2 (in 16-bit arithmetic), provided the
incremented stack pointer stays inside the 16-entry stack. -/
theorem call_then_return_pc (op : Nat) (c : CPU) (r1 r2 : Nat)
    (k1 k2 : Except KeyErr Nat)
    (hop : op &&& 0xF000 = 0x2000)
    (hsp : u8 (c.StackPointer + 1) < 16) :
    ∃ c1 c2, dispatch op c r1 k1 = some (c1, none) ∧
      dispatch 0x00EE c1 r2 k2 = some (c2, none) ∧
      c2.ProgramCounter = u16 (c.ProgramCounter + 2) := by
  have h1 : dispatch op c r1 k1 =
      some ({ c with StackPointer := u8 (c.StackPointer + 1),
                     Stack := upd c.Stack (u8 (c.StackPointer + 1)) c.ProgramCounter,
                     ProgramCounter := op &&& 0x0FFF }, none) := by
    simp [dispatch, hop, hsp]
  have h2 : dispatch 0x00EE
      { c with StackPointer := u8 (c.StackPointer + 1),
               Stack := upd c.Stack (u8 (c.StackPointer + 1)) c.ProgramCounter,
               ProgramCounter := op &&& 0x0FFF } r2 k2 =
      some ({ c with StackPointer := u8 (u8 (c.StackPointer + 1) + 255),
                     Stack := upd c.Stack (u8 (c.StackPointer + 1)) c.ProgramCounter,
                     ProgramCounter := u16 (c.ProgramCounter + 2) }, none) := by
    simp [dispatch, dispatch0, hsp, upd, land_00EE]
  exact ⟨_, _, h1, h2, rfl⟩

/-- C7 witness: on the concrete machine `cpu0` (program counter 0x200,
stack pointer 0), a call to 0x400 followed by a return leaves the
program counter at 0x202. -/
theorem call_then_return_pc_witness :
    ((dispatch 0x2400 cpu0 0 (.ok 1)).bind
      (fun p => dispatch 0x00EE p.1 0 (.ok 1))).map
        (fun p => p.1.ProgramCounter) = some (u16 (cpu0.ProgramCounter + 2)) := by
  obtain ⟨c1, c2, h1, h2, h3⟩ :=
    call_then_return_pc 0x2400 cpu0 0 0 (.ok 1) (.ok 1) (by decide) (by decide)
  rw [h1]
  simp [h2, h3]

lemma dispatch0_timers (op : Nat) (c c1 : CPU) (e : Err)
    (h : dispatch0 op c = some (c1, some e)) :
    c1.DelayTimer = c.DelayTimer ∧ c1.SoundTimer = c.SoundTimer := by
  simp only [dispatch0] at h
  by_cases t0 : op = 0x00E0
  · rw [if_pos t0] at h
    repeat' split at h
    all_goals first
      | exact Option.noConfusion h
      | (obtain ⟨h1, h2⟩ := Prod.mk.inj (Option.some.inj h)
         first
           | exact Option.noConfusion h2
           | (subst h1; exact ⟨rfl, rfl⟩))
  · rw [if_neg t0] at h
    by_cases t1 : op = 0x00EE
    · rw [if_pos t1] at h
      repeat' split at h
      all_goals first
        | exact Option.noConfusion h
        | (obtain ⟨h1, h2⟩ := Prod.mk.inj (Option.some.inj h)
           first
             | exact Option.noConfusion h2
             | (subst h1; exact ⟨rfl, rfl⟩))
    · rw [if_neg t1] at h
      repeat' split at h
      all_goals first
        | exact Option.noConfusion h
        | (obtain ⟨h1, h2⟩ := Prod.mk.inj (Option.some.inj h)
           first
             | exact Option.noConfusion h2
             | (subst h1; exact ⟨rfl, rfl⟩))

lemma dispatch8_timers (op : Nat) (c c1 : CPU) (e : Err)
    (h : dispatch8 op c = some (c1, some e)) :
    c1.DelayTimer = c.DelayTimer ∧ c1.SoundTimer = c.SoundTimer := by
  simp only [dispatch8] at h
  by_cases t0 : op &&& 0x000F = 0x0000
  · rw [if_pos t0] at h
    repeat' split at h
    all_goals first
      | exact Option.noConfusion h
      | (obtain ⟨h1, h2⟩ := Prod.mk.inj (Option.some.inj h)
         first
           | exact Option.noConfusion h2
           | (subst h1; exact ⟨rfl, rfl⟩))
  · rw [if_neg t0] at h
    by_cases t1 : op &&& 0x000F = 0x0001
    · rw [if_pos t1] at h
      repeat' split at h
      all_goals first
        | exact Option.noConfusion h
        | (obtain ⟨h1, h2⟩ := Prod.mk.inj (Option.some.inj h)
           first
             | exact Option.noConfusion h2
             | (subst h1; exact ⟨rfl, rfl⟩))
    · rw [if_neg t1] at h
      by_cases t2 : op &&& 0x000F = 0x0002
      · rw [if_pos t2] at h
        repeat' split at h
        all_goals first
          | exact Option.noConfusion h
          | (obtain ⟨h1, h2⟩ := Prod.mk.inj (Option.some.inj h)
             first
               | exact Option.noConfusion h2
               | (subst h1; exact ⟨rfl, rfl⟩))
      · rw [if_neg t2] at h
        by_cases t3 : op &&& 0x000F = 0x0003
        · rw [if_pos t3] at h
          repeat' split at h
          all_goals first
            | exact Option.noConfusion h
            | (obtain ⟨h1, h2⟩ := Prod.mk.inj (Option.some.inj h)
               first
                 | exact Option.noConfusion h2
                 | (subst h1; exact ⟨rfl, rfl⟩))
        · rw [if_neg t3] at h
          by_cases t4 : op &&& 0x000F = 0x0004
          · rw [if_pos t4] at h
            repeat' split at h
            all_goals first
              | exact Option.noConfusion h
              | (obtain ⟨h1, h2⟩ := Prod.mk.inj (Option.some.inj h)
                 first
                   | exact Option.noConfusion h2
                   | (subst h1; exact ⟨rfl, rfl⟩))
          · rw [if_neg t4] at h
            by_cases t5 : op &&& 0x000F = 0x0005
            · rw [if_pos t5] at h
              repeat' split at h
              all_goals first
                | exact Option.noConfusion h
                | (obtain ⟨h1, h2⟩ := Prod.mk.inj (Option.some.inj h)
                   first
                     | exact Option.noConfusion h2
                     | (subst h1; exact ⟨rfl, rfl⟩))
            · rw [if_neg t5] at h
              by_cases t6 : op &&& 0x000F = 0x0006
              · rw [if_pos t6] at h
                repeat' split at h
                all_goals first
                  | exact Option.noConfusion h
                  | (obtain ⟨h1, h2⟩ := Prod.mk.inj (Option.some.inj h)
                     first
                       | exact Option.noConfusion h2
                       | (subst h1; exact ⟨rfl, rfl⟩))
              · rw [if_neg t6] at h
                by_cases t7 : op &&& 0x000F = 0x0007
                · rw [if_pos t7] at h
                  repeat' split at h
                  all_goals first
                    | exact Option.noConfusion h
                    | (obtain ⟨h1, h2⟩ := Prod.mk.inj (Option.some.inj h)
                       first
                         | exact Option.noConfusion h2
                         | (subst h1; exact ⟨rfl, rfl⟩))
                · rw [if_neg t7] at h
                  by_cases t8 : op &&& 0x000F = 0x000E
                  · rw [if_pos t8] at h
                    repeat' split at h
                    all_goals first
                      | exact Option.noConfusion h
                      | (obtain ⟨h1, h2⟩ := Prod.mk.inj (Option.some.inj h)
                         first
                           | exact Option.noConfusion h2
                           | (subst h1; exact ⟨rfl, rfl⟩))
                  · rw [if_neg t8] at h
                    repeat' split at h
                    all_goals first
                      | exact Option.noConfusion h
                      | (obtain ⟨h1, h2⟩ := Prod.mk.inj (Option.some.inj h)
                         first
                           | exact Option.noConfusion h2
                           | (subst h1; exact ⟨rfl, rfl⟩))

lemma dispatch9_timers (op : Nat) (c c1 : CPU) (e : Err)
    (h : dispatch9 op c = some (c1, some e)) :
    c1.DelayTimer = c.DelayTimer ∧ c1.SoundTimer = c.SoundTimer := by
  simp only [dispatch9] at h
  by_cases t0 : op &&& 0x000F = 0x0000
  · rw [if_pos t0] at h
    repeat' split at h
    all_goals first
      | exact Option.noConfusion h
      | (obtain ⟨h1, h2⟩ := Prod.mk.inj (Option.some.inj h)
         first
           | exact Option.noConfusion h2
           | (subst h1; exact ⟨rfl, rfl⟩))
  · rw [if_neg t0] at h
    repeat' split at h
    all_goals first
      | exact Option.noConfusion h
      | (obtain ⟨h1, h2⟩ := Prod.mk.inj (Option.some.inj h)
         first
           | exact Option.noConfusion h2
           | (subst h1; exact ⟨rfl, rfl⟩))

lemma dispatchD_timers (op : Nat) (c c1 : CPU) (e : Err)
    (h : dispatchD op c = some (c1, some e)) :
    c1.DelayTimer = c.DelayTimer ∧ c1.SoundTimer = c.SoundTimer := by
  simp only [dispatchD] at h
  repeat' split at h
  all_goals first
    | exact Option.noConfusion h
    | (obtain ⟨h1, h2⟩ := Prod.mk.inj (Option.some.inj h)
       first
         | exact Option.noConfusion h2
         | (subst h1; exact ⟨rfl, rfl⟩))

lemma dispatchE_timers (op : Nat) (c : CPU) (k : Except KeyErr Nat)
    (c1 : CPU) (e : Err) (h : dispatchE op c k = some (c1, some e)) :
    c1.DelayTimer = c.DelayTimer ∧ c1.SoundTimer = c.SoundTimer := by
  simp only [dispatchE] at h
  by_cases t0 : op &&& 0x00FF = 0x9E
  · rw [if_pos t0] at h
    repeat' split at h
    all_goals first
      | exact Option.noConfusion h
      | (obtain ⟨h1, h2⟩ := Prod.mk.inj (Option.some.inj h)
         first
           | exact Option.noConfusion h2
           | (subst h1; exact ⟨rfl, rfl⟩))
  · rw [if_neg t0] at h
    by_cases t1 : op &&& 0x00FF = 0xA1
    · rw [if_pos t1] at h
      repeat' split at h
      all_goals first
        | exact Option.noConfusion h
        | (obtain ⟨h1, h2⟩ := Prod.mk.inj (Option.some.inj h)
           first
             | exact Option.noConfusion h2
             | (subst h1; exact ⟨rfl, rfl⟩))
    · rw [if_neg t1] at h
      repeat' split at h
      all_goals first
        | exact Option.noConfusion h
        | (obtain ⟨h1, h2⟩ := Prod.mk.inj (Option.some.inj h)
           first
             | exact Option.noConfusion h2
             | (subst h1; exact ⟨rfl, rfl⟩))

lemma dispatchF_timers (op : Nat) (c : CPU) (k : Except KeyErr Nat)
    (c1 : CPU) (e : Err) (h : dispatchF op c k = some (c1, some e)) :
    c1.DelayTimer = c.DelayTimer ∧ c1.SoundTimer = c.SoundTimer := by
  simp only [dispatchF] at h
  by_cases t0 : op &&& 0x00FF = 0x07
  · rw [if_pos t0] at h
    repeat' split at h
    all_goals first
      | exact Option.noConfusion h
      | (obtain ⟨h1, h2⟩ := Prod.mk.inj (Option.some.inj h)
         first
           | exact Option.noConfusion h2
           | (subst h1; exact ⟨rfl, rfl⟩))
  · rw [if_neg t0] at h
    by_cases t1 : op &&& 0x00FF = 0x0A
    · rw [if_pos t1] at h
      repeat' split at h
      all_goals first
        | exact Option.noConfusion h
        | (obtain ⟨h1, h2⟩ := Prod.mk.inj (Option.some.inj h)
           first
             | exact Option.noConfusion h2
             | (subst h1; exact ⟨rfl, rfl⟩))
    · rw [if_neg t1] at h
      by_cases t2 : op &&& 0x00FF = 0x15
      · rw [if_pos t2] at h
        repeat' split at h
        all_goals first
          | exact Option.noConfusion h
          | (obtain ⟨h1, h2⟩ := Prod.mk.inj (Option.some.inj h)
             first
               | exact Option.noConfusion h2
               | (subst h1; exact ⟨rfl, rfl⟩))
      · rw [if_neg t2] at h
        by_cases t3 : op &&& 0x00FF = 0x18
        · rw [if_pos t3] at h
          repeat' split at h
          all_goals first
            | exact Option.noConfusion h
            | (obtain ⟨h1, h2⟩ := Prod.mk.inj (Option.some.inj h)
               first
                 | exact Option.noConfusion h2
                 | (subst h1; exact ⟨rfl, rfl⟩))
        · rw [if_neg t3] at h
          by_cases t4 : op &&& 0x00FF = 0x1E
          · rw [if_pos t4] at h
            repeat' split at h
            all_goals first
              | exact Option.noConfusion h
              | (obtain ⟨h1, h2⟩ := Prod.mk.inj (Option.some.inj h)
                 first
                   | exact Option.noConfusion h2
                   | (subst h1; exact ⟨rfl, rfl⟩))
          · rw [if_neg t4] at h
            by_cases t5 : op &&& 0x00FF = 0x29
            · rw [if_pos t5] at h
              repeat' split at h
              all_goals first
                | exact Option.noConfusion h
                | (obtain ⟨h1, h2⟩ := Prod.mk.inj (Option.some.inj h)
                   first
                     | exact Option.noConfusion h2
                     | (subst h1; exact ⟨rfl, rfl⟩))
            · rw [if_neg t5] at h
              by_cases t6 : op &&& 0x00FF = 0x33
              · rw [if_pos t6] at h
                repeat' split at h
                all_goals first
                  | exact Option.noConfusion h
                  | (obtain ⟨h1, h2⟩ := Prod.mk.inj (Option.some.inj h)
                     first
                       | exact Option.noConfusion h2
                       | (subst h1; exact ⟨rfl, rfl⟩))
              · rw [if_neg t6] at h
                by_cases t7 : op &&& 0x00FF = 0x55
                · rw [if_pos t7] at h
                  repeat' split at h
                  all_goals first
                    | exact Option.noConfusion h
                    | (obtain ⟨h1, h2⟩ := Prod.mk.inj (Option.some.inj h)
                       first
                         | exact Option.noConfusion h2
                         | (subst h1; exact ⟨rfl, rfl⟩))
                · rw [if_neg t7] at h
                  by_cases t8 : op &&& 0x00FF = 0x65
                  · rw [if_pos t8] at h
                    repeat' split at h
                    all_goals first
                      | exact Option.noConfusion h
                      | (obtain ⟨h1, h2⟩ := Prod.mk.inj (Option.some.inj h)
                         first
                           | exact Option.noConfusion h2
                           | (subst h1; exact ⟨rfl, rfl⟩))
                  · rw [if_neg t8] at h
                    repeat' split at h
                    all_goals first
                      | exact Option.noConfusion h
                      | (obtain ⟨h1, h2⟩ := Prod.mk.inj (Option.some.inj h)
                         first
                           | exact Option.noConfusion h2
                           | (subst h1; exact ⟨rfl, rfl⟩))

lemma dispatch_error_preserves_timers (op : Nat) (c : CPU) (r : Nat)
    (k : Except KeyErr Nat) (c1 : CPU) (e : Err)
    (h : dispatch op c r k = some (c1, some e)) :
    c1.DelayTimer = c.DelayTimer ∧ c1.SoundTimer = c.SoundTimer := by
  simp only [dispatch] at h
  by_cases s0 : op &&& 0xF000 = 0x0000
  · rw [if_pos s0] at h
    exact dispatch0_timers _ _ _ _ h
  · rw [if_neg s0] at h
    by_cases s1 : op &&& 0xF000 = 0x1000
    · rw [if_pos s1] at h
      repeat' split at h
      all_goals first
        | exact Option.noConfusion h
        | (obtain ⟨h1, h2⟩ := Prod.mk.inj (Option.some.inj h)
           first
             | exact Option.noConfusion h2
             | (subst h1; exact ⟨rfl, rfl⟩))
    · rw [if_neg s1] at h
      by_cases s2 : op &&& 0xF000 = 0x2000
      · rw [if_pos s2] at h
        repeat' split at h
        all_goals first
          | exact Option.noConfusion h
          | (obtain ⟨h1, h2⟩ := Prod.mk.inj (Option.some.inj h)
             first
               | exact Option.noConfusion h2
               | (subst h1; exact ⟨rfl, rfl⟩))
      · rw [if_neg s2] at h
        by_cases s3 : op &&& 0xF000 = 0x3000
        · rw [if_pos s3] at h
          repeat' split at h
          all_goals first
            | exact Option.noConfusion h
            | (obtain ⟨h1, h2⟩ := Prod.mk.inj (Option.some.inj h)
               first
                 | exact Option.noConfusion h2
                 | (subst h1; exact ⟨rfl, rfl⟩))
        · rw [if_neg s3] at h
          by_cases s4 : op &&& 0xF000 = 0x4000
          · rw [if_pos s4] at h
            repeat' split at h
            all_goals first
              | exact Option.noConfusion h
              | (obtain ⟨h1, h2⟩ := Prod.mk.inj (Option.some.inj h)
                 first
                   | exact Option.noConfusion h2
                   | (subst h1; exact ⟨rfl, rfl⟩))
          · rw [if_neg s4] at h
            by_cases s5 : op &&& 0xF000 = 0x5000
            · rw [if_pos s5] at h
              repeat' split at h
              all_goals first
                | exact Option.noConfusion h
                | (obtain ⟨h1, h2⟩ := Prod.mk.inj (Option.some.inj h)
                   first
                     | exact Option.noConfusion h2
                     | (subst h1; exact ⟨rfl, rfl⟩))
            · rw [if_neg s5] at h
              by_cases s6 : op &&& 0xF000 = 0x6000
              · rw [if_pos s6] at h
                repeat' split at h
                all_goals first
                  | exact Option.noConfusion h
                  | (obtain ⟨h1, h2⟩ := Prod.mk.inj (Option.some.inj h)
                     first
                       | exact Option.noConfusion h2
                       | (subst h1; exact ⟨rfl, rfl⟩))
              · rw [if_neg s6] at h
                by_cases s7 : op &&& 0xF000 = 0x7000
                · rw [if_pos s7] at h
                  repeat' split at h
                  all_goals first
                    | exact Option.noConfusion h
                    | (obtain ⟨h1, h2⟩ := Prod.mk.inj (Option.some.inj h)
                       first
                         | exact Option.noConfusion h2
                         | (subst h1; exact ⟨rfl, rfl⟩))
                · rw [if_neg s7] at h
                  by_cases s8 : op &&& 0xF000 = 0x8000
                  · rw [if_pos s8] at h
                    exact dispatch8_timers _ _ _ _ h
                  · rw [if_neg s8] at h
                    by_cases s9 : op &&& 0xF000 = 0x9000
                    · rw [if_pos s9] at h
                      exact dispatch9_timers _ _ _ _ h
                    · rw [if_neg s9] at h
                      by_cases s10 : op &&& 0xF000 = 0xA000
                      · rw [if_pos s10] at h
                        repeat' split at h
                        all_goals first
                          | exact Option.noConfusion h
                          | (obtain ⟨h1, h2⟩ := Prod.mk.inj (Option.some.inj h)
                             first
                               | exact Option.noConfusion h2
                               | (subst h1; exact ⟨rfl, rfl⟩))
                      · rw [if_neg s10] at h
                        by_cases s11 : op &&& 0xF000 = 0xB000
                        · rw [if_pos s11] at h
                          repeat' split at h
                          all_goals first
                            | exact Option.noConfusion h
                            | (obtain ⟨h1, h2⟩ := Prod.mk.inj (Option.some.inj h)
                               first
                                 | exact Option.noConfusion h2
                                 | (subst h1; exact ⟨rfl, rfl⟩))
                        · rw [if_neg s11] at h
                          by_cases s12 : op &&& 0xF000 = 0xC000
                          · rw [if_pos s12] at h
                            repeat' split at h
                            all_goals first
                              | exact Option.noConfusion h
                              | (obtain ⟨h1, h2⟩ := Prod.mk.inj (Option.some.inj h)
                                 first
                                   | exact Option.noConfusion h2
                                   | (subst h1; exact ⟨rfl, rfl⟩))
                          · rw [if_neg s12] at h
                            by_cases s13 : op &&& 0xF000 = 0xD000
                            · rw [if_pos s13] at h
                              exact dispatchD_timers _ _ _ _ h
                            · rw [if_neg s13] at h
                              by_cases s14 : op &&& 0xF000 = 0xE000
                              · rw [if_pos s14] at h
                                exact dispatchE_timers _ _ _ _ _ h
                              · rw [if_neg s14] at h
                                by_cases s15 : op &&& 0xF000 = 0xF000
                                · rw [if_pos s15] at h
                                  exact dispatchF_timers _ _ _ _ _ h
                                · rw [if_neg s15] at h
                                  repeat' split at h
                                  all_goals first
                                    | exact Option.noConfusion h
                                    | (obtain ⟨h1, h2⟩ := Prod.mk.inj (Option.some.inj h)
                                       first
                                         | exact Option.noConfusion h2
                                         | (subst h1; exact ⟨rfl, rfl⟩))

/-- C8: whenever dispatch of the fetched opcode fails with an error,
`emulateCycle` surfaces that error (with the opcode) whole, and both the
delay timer and the sound timer of the returned state equal those of the
pre-cycle state — no partial timer decrement occurs. -/
theorem emulateCycle_error_preserves_timers (c : CPU) (r : Nat)
    (k : Except KeyErr Nat) (c1 : CPU) (e : Err)
    (h : dispatch (decodeOp c) c r k = some (c1, some e)) :
    emulateCycle c r k = some (c1, decodeOp c, some e) ∧
    c1.DelayTimer = c.DelayTimer ∧ c1.SoundTimer = c.SoundTimer := by
  refine ⟨?_, dispatch_error_preserves_timers _ _ _ _ _ _ h⟩
  simp only [emulateCycle, h]

/-- C8 witness: on `cpu0` the fetched opcode is 0x0000, dispatch fails
with `UnknownOpcode`, and the cycle surfaces it with both timers
untouched. -/
theorem emulateCycle_error_preserves_timers_witness :
    emulateCycle cpu0 0 (.ok 1) = some (cpu0, decodeOp cpu0, some (.unknownOpcode 0)) ∧
    cpu0.DelayTimer = cpu0.DelayTimer ∧ cpu0.SoundTimer = cpu0.SoundTimer :=
  emulateCycle_error_preserves_timers cpu0 0 (.ok 1) cpu0 (.unknownOpcode 0) rfl

lemma runStep_of_dispatch_err (c : CPU) (r : Nat) (key : Except KeyErr Nat)
    (c1 : CPU) (e : Err)
    (h : dispatch (decodeOp c) c r key = some (c1, some e)) :
    runStep c r key = if e = .quit then .stopOk else .stopErr e := by
  simp only [runStep, emulateCycle, h]

/-- C9: during any key-reading opcode (`EX9E`, `EXA1`, `FX0A`), a quit
result from the keypad source propagates unwrapped through dispatch as
the quit sentinel and the run loop terminates cleanly (`stopOk`, the nil
return); any other keypad error is wrapped and surfaced by the loop as a
fatal error. -/
theorem quit_clean_exit_other_wrapped (op : Nat) (c : CPU) (r : Nat)
    (hop : (op &&& 0xF000 = 0xE000 ∧ (op &&& 0x00FF = 0x9E ∨ op &&& 0x00FF = 0xA1)) ∨
           (op &&& 0xF000 = 0xF000 ∧ op &&& 0x00FF = 0x0A))
    (hdec : decodeOp c = op) :
    (∃ c1, dispatch op c r (.error .quit) = some (c1, some .quit)) ∧
    runStep c r (.error .quit) = .stopOk ∧
    (∀ n, (∃ c1, dispatch op c r (.error (.other n)) =
            some (c1, some (.keypadWrapped n))) ∧
      runStep c r (.error (.other n)) = .stopErr (.keypadWrapped n)) := by
  have hq : ∃ c1, dispatch op c r (.error .quit) = some (c1, some .quit) := by
    rcases hop with ⟨h1, h2 | h2⟩ | ⟨h1, h2⟩
    · exact ⟨{ c with ProgramCounter := u16 (c.ProgramCounter + 2) },
        by simp [dispatch, dispatchE, h1, h2, getKey]⟩
    · exact ⟨{ c with ProgramCounter := u16 (c.ProgramCounter + 2) },
        by simp [dispatch, dispatchE, h1, h2, getKey]⟩
    · exact ⟨c, by simp [dispatch, dispatchF, h1, h2, getKey]⟩
  have ho : ∀ n, ∃ c1, dispatch op c r (.error (.other n)) =
      some (c1, some (.keypadWrapped n)) := by
    intro n
    rcases hop with ⟨h1, h2 | h2⟩ | ⟨h1, h2⟩
    · exact ⟨{ c with ProgramCounter := u16 (c.ProgramCounter + 2) },
        by simp [dispatch, dispatchE, h1, h2, getKey]⟩
    · exact ⟨{ c with ProgramCounter := u16 (c.ProgramCounter + 2) },
        by simp [dispatch, dispatchE, h1, h2, getKey]⟩
    · exact ⟨c, by simp [dispatch, dispatchF, h1, h2, getKey]⟩
  obtain ⟨c1, hc1⟩ := hq
  refine ⟨⟨c1, hc1⟩, ?_, fun n => ?_⟩
  · rw [runStep_of_dispatch_err c r (.error .quit) c1 .quit (by rw [hdec]; exact hc1)]
    simp
  · obtain ⟨c2, hc2⟩ := ho n
    refine ⟨⟨c2, hc2⟩, ?_⟩
    rw [runStep_of_dispatch_err c r (.error (.other n)) c2 (.keypadWrapped n)
      (by rw [hdec]; exact hc2)]
    simp

/-- C9 witness: on `cpu9E` (next opcode `0xE09E`), a quit from the
keypad makes the loop stop cleanly, and keypad error 42 is wrapped and
surfaced as fatal. -/
theorem quit_clean_exit_other_wrapped_witness :
    runStep cpu9E 0 (.error .quit) = .stopOk ∧
    runStep cpu9E 0 (.error (.other 42)) = .stopErr (.keypadWrapped 42) := by
  have h := quit_clean_exit_other_wrapped 0xE09E cpu9E 0
    (Or.inl ⟨by decide, Or.inl (by decide)⟩) rfl
  exact ⟨h.2.1, (h.2.2 42).2⟩

/-- C10: the call opcode increments the stack pointer before pushing:
with stack pointer below 15 a call succeeds, writing the call-site
program counter into slot `sp+1` (a slot in 1..15, never slot 0) and
leaving every other slot unchanged; with stack pointer 15 a 16th nested
call indexes slot 16, outside the 16-entry stack array (a panic); and a
return executed with stack pointer 0 wraps the byte stack pointer to
255. -/
theorem stack_discipline_and_overflow (c : CPU) (r : Nat)
    (k : Except KeyErr Nat) :
    (∀ op, op &&& 0xF000 = 0x2000 → c.StackPointer < 15 →
      ∃ c1, dispatch op c r k = some (c1, none) ∧
        c1.StackPointer = c.StackPointer + 1 ∧
        1 ≤ c1.StackPointer ∧ c1.StackPointer ≤ 15 ∧
        c1.Stack c1.StackPointer = c.ProgramCounter ∧
        (∀ j, j ≠ c.StackPointer + 1 → c1.Stack j = c.Stack j)) ∧
    (∀ op, op &&& 0xF000 = 0x2000 → c.StackPointer = 15 →
      dispatch op c r k = none) ∧
    (c.StackPointer = 0 →
      ∃ c1, dispatch 0x00EE c r k = some (c1, none) ∧
        c1.StackPointer = 255 ∧
        c1.ProgramCounter = u16 (c.Stack 0 + 2)) := by
  refine ⟨?_, ?_, ?_⟩
  · intro op hop hsp
    have hu8 : u8 (c.StackPointer + 1) = c.StackPointer + 1 := by
      unfold u8; omega
    have hlt : u8 (c.StackPointer + 1) < 16 := by omega
    refine ⟨({ c with StackPointer := u8 (c.StackPointer + 1),
                      Stack := upd c.Stack (u8 (c.StackPointer + 1)) c.ProgramCounter,
                      ProgramCounter := op &&& 0x0FFF } : CPU), ?_, ?_, ?_, ?_, ?_, ?_⟩
    · simp [dispatch, hop, hlt]
    · simpa using hu8
    · simp [hu8]
    · simp [hu8]
      omega
    · simp [upd, hu8]
    · intro j hj
      simp only [upd, hu8]
      rw [if_neg (fun he => hj he)]
  · intro op hop hsp
    have h16 : ¬ u8 (c.StackPointer + 1) < 16 := by
      rw [hsp]
      decide
    simp [dispatch, hop, h16]
  · intro hsp
    refine ⟨({ c with ProgramCounter := u16 (c.Stack c.StackPointer + 2),
                      StackPointer := u8 (c.StackPointer + 255) } : CPU), ?_, ?_, ?_⟩
    · have : c.StackPointer < 16 := by omega
      simp [dispatch, dispatch0, this, land_00EE]
    · simp [hsp, u8]
    · simp [hsp]

/-- C10 witness: on `cpu0` (fresh machine) a call writes slot 1 with
0x200 and sets the stack pointer to 1; on `cpu15` (stack pointer 15) a
further call panics; on `cpu0` a bare return wraps the stack pointer to
255. -/
theorem stack_discipline_and_overflow_witness :
    (dispatch 0x2300 cpu0 0 (.ok 1)).map
      (fun p => (p.1.StackPointer, p.1.Stack 1)) = some (1, 0x200) ∧
    dispatch 0x2300 cpu15 0 (.ok 1) = none ∧
    (dispatch 0x00EE cpu0 0 (.ok 1)).map
      (fun p => p.1.StackPointer) = some 255 := by
  obtain ⟨h1, -, h3⟩ := stack_discipline_and_overflow cpu0 0 (.ok 1)
  obtain ⟨-, h2, -⟩ := stack_discipline_and_overflow cpu15 0 (.ok 1)
  refine ⟨?_, h2 0x2300 (by decide) rfl, ?_⟩
  · obtain ⟨c1, hc1, hsp1, -, -, hst, -⟩ := h1 0x2300 (by decide) (by decide)
    have e1 : c1.StackPointer = 1 := by rw [hsp1]; rfl
    rw [e1] at hst
    rw [hc1]
    simp [e1, hst, cpu0]
  · obtain ⟨c1, hc1, hsp1, -⟩ := h3 rfl
    rw [hc1]
    simp [hsp1]

end Chip8
